import Mathlib

/-!
Verification development for the live-satellites catalog and position pipeline.

The Python sources embedded here are:
* `live_sat_engine.py` — `LiveSatelliteEngine` with `fetch_group`,
  `load_all_groups` and `compute_position`;
* `generate_all_geojson.py` — `safe_num`, `compute_velocity_km_s`,
  `classify_orbit` and `generate_group_files`;
* `generate_geojson.py` — `build_geojson`.

Python floats are modelled as exact real numbers extended with the IEEE special
values (NaN and the two infinities); rounding is not modelled.  External
collaborators (the network, the sgp4 propagator `Satrec.sgp4`, `jday`,
`datetime.now` and `isoformat`) are modelled as explicit parameters gathered in
an `Ext` record, since their internals are not part of this repository.
Python dicts keyed by strings are modelled as association lists; the satellite
catalog dict is keyed by the integer `NORAD_CAT_ID` (Celestrak ids are JSON
integers) with insert-or-overwrite semantics matching Python assignment.
-/

namespace LiveSat

/-- Model of a Python float: an exact real, NaN, or a signed infinity. -/
inductive F where
  | fin : ℝ → F
  | nan : F
  | inf : F
  | ninf : F

/-- Python float addition on the model (IEEE special-value rules). -/
noncomputable def F.add : F → F → F
  | .nan, _ => .nan
  | _, .nan => .nan
  | .fin x, .fin y => .fin (x + y)
  | .inf, .ninf => .nan
  | .inf, _ => .inf
  | .ninf, .inf => .nan
  | .ninf, _ => .ninf
  | .fin _, .inf => .inf
  | .fin _, .ninf => .ninf

open Classical in
/-- Python float multiplication on the model (IEEE special-value rules). -/
noncomputable def F.mul : F → F → F
  | .nan, _ => .nan
  | _, .nan => .nan
  | .fin x, .fin y => .fin (x * y)
  | .inf, .inf => .inf
  | .inf, .ninf => .ninf
  | .ninf, .inf => .ninf
  | .ninf, .ninf => .inf
  | .inf, .fin x => if x = 0 then .nan else if 0 < x then .inf else .ninf
  | .ninf, .fin x => if x = 0 then .nan else if 0 < x then .ninf else .inf
  | .fin x, .inf => if x = 0 then .nan else if 0 < x then .inf else .ninf
  | .fin x, .ninf => if x = 0 then .nan else if 0 < x then .ninf else .inf

/-- Python float subtraction on the model (IEEE special-value rules). -/
noncomputable def F.sub : F → F → F
  | .nan, _ => .nan
  | _, .nan => .nan
  | .fin x, .fin y => .fin (x - y)
  | .inf, .inf => .nan
  | .inf, _ => .inf
  | .ninf, .ninf => .nan
  | .ninf, _ => .ninf
  | .fin _, .inf => .ninf
  | .fin _, .ninf => .inf

/-- Model of `math.sqrt`.  In `compute_position` the argument is always a sum
of squares, so the negative-argument branch (where CPython raises
`ValueError`) is unreachable there; it is mapped to NaN. -/
noncomputable def sqrtF : F → F
  | .nan => .nan
  | .fin x => .fin (Real.sqrt x)
  | .inf => .inf
  | .ninf => .nan

/-- Two-argument arctangent on the reals: `atan2 y x`, with the IEEE range
`(-pi, pi]` and `atan2 0 0 = 0`, realised as the complex argument of
`x + y i`. -/
noncomputable def atan2 (y x : ℝ) : ℝ := Complex.arg ⟨x, y⟩

open Classical in
/-- Model of `math.atan2` on Python floats (IEEE special-value rules). -/
noncomputable def atan2F : F → F → F
  | .nan, _ => .nan
  | _, .nan => .nan
  | .fin y, .fin x => .fin (atan2 y x)
  | .inf, .fin _ => .fin (Real.pi / 2)
  | .ninf, .fin _ => .fin (-(Real.pi / 2))
  | .inf, .inf => .fin (Real.pi / 4)
  | .inf, .ninf => .fin (3 * Real.pi / 4)
  | .ninf, .inf => .fin (-(Real.pi / 4))
  | .ninf, .ninf => .fin (-(3 * Real.pi / 4))
  | .fin _, .inf => .fin 0
  | .fin y, .ninf => if 0 ≤ y then .fin Real.pi else .fin (-Real.pi)

/-- Conversion from radians to degrees on the reals, as in `math.degrees`. -/
noncomputable def degrees (r : ℝ) : ℝ := r * (180 / Real.pi)

/-- Model of `math.degrees` on Python floats. -/
noncomputable def degF : F → F
  | .nan => .nan
  | .inf => .inf
  | .ninf => .ninf
  | .fin x => .fin (degrees x)

/-- Model of `math.radians`, applied to a real number of degrees. -/
noncomputable def radians (d : ℝ) : ℝ := d * (Real.pi / 180)

/-- Model of a JSON scalar as parsed by `requests.Response.json`: an integer,
a (finite) number, a string, or `null`. -/
inductive JVal where
  | int (n : ℤ)
  | num (x : ℝ)
  | str (s : String)
  | null

/-- Values accepted by the numeric `math` functions and by `sgp4init`
arithmetic: Python ints and floats.  Strings and `None` raise `TypeError`. -/
noncomputable def jnum : JVal → Option ℝ
  | .int n => some (n : ℝ)
  | .num x => some x
  | .str _ => none
  | .null => none

/-- Presence-plus-numeric check for one field of a raw record: `none` models
a `KeyError` (missing field) or a `TypeError` (non-numeric value), both of
which end in the surrounding bare `except` of `load_all_groups`. -/
noncomputable def jnumField (v : Option JVal) : Option ℝ := v.bind jnum

/-- A raw Celestrak GP record, modelled as a fixed-schema dict: each field is
`none` when the key is absent.  `NORAD_CAT_ID` is an integer (it is used as a
dict key) and `OBJECT_NAME` a string, as in the upstream feed; the remaining
fields carry arbitrary JSON scalars. -/
structure RawRecord where
  NORAD_CAT_ID : Option ℤ
  OBJECT_NAME : Option String
  EPOCH : Option JVal
  BSTAR : Option JVal
  MEAN_MOTION_DOT : Option JVal
  MEAN_MOTION_DDOT : Option JVal
  ECCENTRICITY : Option JVal
  INCLINATION : Option JVal
  RA_OF_ASC_NODE : Option JVal
  ARG_OF_PERICENTER : Option JVal
  MEAN_ANOMALY : Option JVal
  MEAN_MOTION : Option JVal
  OBJECT_ID : Option JVal
  OBJECT_TYPE : Option JVal
  CLASSIFICATION_TYPE : Option JVal
  COUNTRY : Option JVal
  LAUNCH_DATE : Option JVal
  SITE_CODE : Option JVal
  DECAY_DATE : Option JVal
  RCS : Option JVal
  PERIOD : Option JVal
  PERIGEE : Option JVal
  APOGEE : Option JVal

/-- The propagator state built by `Satrec.sgp4init`, recording the arguments
of the positional call in `load_all_groups` in order: gravity model, opsmode,
satellite number, epoch, drag, ndot, nddot, eccentricity, argument of perigee
(rad), inclination (rad), mean anomaly (rad), mean motion (as passed), RAAN
(rad). -/
structure Satrec where
  whichconst : ℤ
  opsmode : String
  satnum : ℤ
  epoch : ℝ
  bstar : ℝ
  ndot : ℝ
  nddot : ℝ
  ecco : ℝ
  argpo : ℝ
  inclo : ℝ
  mo : ℝ
  noKozai : ℝ
  nodeo : ℝ

/-- The conversions of the first `try` block of `load_all_groups`:
`math.radians` applied to the four angle fields, in source order.  `none`
models an exception caught by the bare `except` (record skipped). -/
noncomputable def anglesOf (r : RawRecord) : Option (ℝ × ℝ × ℝ × ℝ) := do
  let incl ← (jnumField r.INCLINATION).map radians
  let raan ← (jnumField r.RA_OF_ASC_NODE).map radians
  let argp ← (jnumField r.ARG_OF_PERICENTER).map radians
  let meanAnom ← (jnumField r.MEAN_ANOMALY).map radians
  pure (incl, raan, argp, meanAnom)

/-- The `sgp4init` call of the second `try` block of `load_all_groups`: the
remaining fields are fetched from the record and used in arithmetic, so a
missing or non-numeric field raises and the record is skipped (`none`).  Note
that `EPOCH`, `BSTAR`, the mean-motion derivatives, the eccentricity and the
mean motion are passed exactly as found in the record, with no unit
conversion. -/
noncomputable def sgp4init (norad : ℤ) (r : RawRecord)
    (incl raan argp meanAnom : ℝ) : Option Satrec := do
  let ep ← jnumField r.EPOCH
  let bs ← jnumField r.BSTAR
  let nd ← jnumField r.MEAN_MOTION_DOT
  let ndd ← jnumField r.MEAN_MOTION_DDOT
  let ec ← jnumField r.ECCENTRICITY
  let mm ← jnumField r.MEAN_MOTION
  pure ⟨72, "i", norad, ep, bs, nd, ndd, ec, argp, incl, meanAnom, mm, raan⟩

/-- One entry of `self.sats`: the dict
`{"name": ..., "group": ..., "satrec": ..., "meta": entry}`. -/
structure SatEntry where
  name : String
  group : String
  satrec : Satrec
  meta : RawRecord

/-- The `self.sats` dict, as an association list in insertion order. -/
abbrev Catalog := List (ℤ × SatEntry)

/-- Python dict assignment `d[k] = v`: replace in place if the key exists,
append otherwise. -/
def dict_insert (k : ℤ) (v : SatEntry) (c : Catalog) : Catalog :=
  if (List.map Prod.fst c).contains k then
    List.map (fun p => if p.1 = k then (k, v) else p) c
  else c ++ [(k, v)]

/-- The body of the per-record loop of `load_all_groups`.  Result `none`
models an uncaught exception that aborts the whole load:
`entry["NORAD_CAT_ID"]` (line 85) and `entry["OBJECT_NAME"]` (line 120) are
evaluated outside the two `try` blocks, so a record missing either key raises
`KeyError` past the loop.  The two `try` blocks skip the record instead
(result `some c`, the catalog unchanged). -/
noncomputable def process_entry (g : String) (c : Catalog) (r : RawRecord) :
    Option Catalog :=
  match r.NORAD_CAT_ID with
  | none => none
  | some norad =>
    match anglesOf r with
    | none => some c
    | some (incl, raan, argp, meanAnom) =>
      match sgp4init norad r incl raan argp meanAnom with
      | none => some c
      | some satrec =>
        match r.OBJECT_NAME with
        | none => none
        | some nm => some (dict_insert norad ⟨nm, g, satrec, r⟩ c)

/-- The per-record loop of `load_all_groups` over one fetched group. -/
noncomputable def load_group_records (g : String) :
    List RawRecord → Catalog → Option Catalog
  | [], c => some c
  | r :: rs, c =>
    match process_entry g c r with
    | none => none
    | some c1 => load_group_records g rs c1

/-- The outer loop of `load_all_groups` over the configured group names, with
the fetched data of each group supplied by `fetch`; an empty fetch result is
skipped with `continue`. -/
noncomputable def load_groups_from :
    List String → (String → List RawRecord) → Catalog → Option Catalog
  | [], _, c => some c
  | g :: gs, fetch, c =>
    if (fetch g).isEmpty then load_groups_from gs fetch c
    else
      match load_group_records g (fetch g) c with
      | none => none
      | some c1 => load_groups_from gs fetch c1

/-- `LiveSatelliteEngine.load_all_groups`, starting from the empty
`self.sats` dict of `__init__`. -/
noncomputable def load_all_groups (groups : List String)
    (fetch : String → List RawRecord) : Option Catalog :=
  load_groups_from groups fetch []

/-- Outcome of one attempt of the retry loop in `fetch_group`: either
`requests.get` or `r.json()` raised, or a response with a status code and a
parsed body was obtained. -/
inductive AttemptRes where
  | exc
  | ok (status : ℕ) (body : List RawRecord) (isList : Bool)

/-- An attempt from which `fetch_group` returns: status 200, a list body, and
a non-empty list. -/
def attemptSuccess : AttemptRes → Prop
  | .exc => False
  | .ok status body isList => status = 200 ∧ isList = true ∧ body ≠ []

/-- `LiveSatelliteEngine.fetch_group` over the sequence of attempt outcomes
(the Python loop makes `retries` attempts; the list is that sequence): the
first attempt with status 200 and a non-empty list body is returned, and
exhausting all attempts returns the empty list. -/
def fetch_group : List AttemptRes → List RawRecord
  | [] => []
  | .exc :: rest => fetch_group rest
  | .ok status body isList :: rest =>
    if status = 200 ∧ isList = true then
      match body with
      | [] => fetch_group rest
      | r :: rs => r :: rs
    else fetch_group rest

/-- The components of `datetime.datetime` used by `compute_position`. -/
structure Instant where
  year : ℤ
  month : ℤ
  day : ℤ
  hour : ℤ
  minute : ℤ
  second : ℤ
  microsecond : ℤ

/-- The external collaborators of the engine: `jday` from `sgp4.api`, the
propagator `Satrec.sgp4` (taking the built state and the two Julian-date
components and returning the error code and the position and velocity
vectors), `datetime.now(timezone.utc)`, and `datetime.isoformat`.  All are
pure functions fixed for a run. -/
structure Ext where
  jday : ℤ → ℤ → ℤ → ℤ → ℤ → ℝ → ℝ × ℝ
  sgp4 : Satrec → ℝ → ℝ → ℤ × (F × F × F) × (F × F × F)
  now : Instant
  isoformat : Instant → String

/-- A value stored in the sample dict returned by `compute_position`, or in a
GeoJSON property bag. -/
inductive SVal where
  | int (n : ℤ)
  | str (s : String)
  | flt (x : F)
  | obj (r : RawRecord)
  | null

/-- The sample dict returned by `compute_position`, as an association list in
key insertion order. -/
abbrev Sample := List (String × SVal)

/-- The body of `compute_position` after the catalog lookup succeeded: call
`jday` on the datetime components, call the propagator, return `None` on a
non-zero error code, and otherwise assemble the sample dict with the geodetic
conversion (`lon`, `lat`, `alt_km`).  No finiteness check is performed on the
computed coordinates. -/
noncomputable def position_sample (ext : Ext) (sat : SatEntry) (norad : ℤ)
    (t : Instant) : Option Sample :=
  let jdfr := ext.jday t.year t.month t.day t.hour t.minute
    ((t.second : ℝ) + (t.microsecond : ℝ) / 1000000)
  let res := ext.sgp4 sat.satrec jdfr.1 jdfr.2
  if res.1 ≠ 0 then none
  else
    let x := res.2.1.1
    let y := res.2.1.2.1
    let z := res.2.1.2.2
    some [("norad_id", SVal.int norad),
      ("name", SVal.str sat.name),
      ("group", SVal.str sat.group),
      ("lon", SVal.flt (degF (atan2F y x))),
      ("lat", SVal.flt (degF (atan2F z (sqrtF (F.add (F.mul x x) (F.mul y y)))))),
      ("alt_km", SVal.flt (F.sub
        (sqrtF (F.add (F.add (F.mul x x) (F.mul y y)) (F.mul z z)))
        (F.fin 6378.137))),
      ("timestamp", SVal.str (ext.isoformat t)),
      ("meta", SVal.obj sat.meta)]

/-- `LiveSatelliteEngine.compute_position`: `None` when the id is not in
`self.sats`; otherwise the instant defaults to `datetime.now(timezone.utc)`
when not supplied, and the sample is computed from the stored entry. -/
noncomputable def compute_position (ext : Ext) (sats : Catalog) (norad : ℤ)
    (tOpt : Option Instant) : Option Sample :=
  match List.lookup norad sats with
  | none => none
  | some sat => position_sample ext sat norad (tOpt.getD ext.now)

/-- `safe_num` of `generate_all_geojson.py` applied to a `meta.get(key)`
result: `None` and JSON `null` give `None`; ints and floats convert; the
non-finite check never fires on record values (the feed carries finite
numbers); `float` of the string fields used here (dates, designators) raises
`ValueError`, which the bare `except` turns into `None`. -/
noncomputable def safe_num_jval : Option JVal → Option ℝ
  | none => none
  | some .null => none
  | some (.int n) => some (n : ℝ)
  | some (.num x) => some x
  | some (.str _) => none

/-- `safe_num` applied to a float value (the `pos` coordinate fields):
`float` is the identity and the `isnan`/`isinf` test rejects the special
values. -/
noncomputable def safe_num_f : F → Option ℝ
  | .fin x => some x
  | .nan => none
  | .inf => none
  | .ninf => none

/-- `safe_num` applied to a value taken out of the sample dict. -/
noncomputable def safe_num_sval : SVal → Option ℝ
  | .flt f => safe_num_f f
  | .int n => some (n : ℝ)
  | .str _ => none
  | .obj _ => none
  | .null => none

/-- `safe_num` applied to a float-or-`None` value (the computed velocity). -/
noncomputable def safe_num_real : Option ℝ → Option ℝ
  | none => none
  | some x => some x

open Classical in
/-- `compute_velocity_km_s` of `generate_all_geojson.py`: `None` for a falsy
(`None` or zero) mean motion, otherwise the circular-orbit speed from the
orbital period. -/
noncomputable def compute_velocity_km_s (meanMotionRevPerDay : Option ℝ) :
    Option ℝ :=
  match meanMotionRevPerDay with
  | none => none
  | some m =>
    if m = 0 then none
    else
      some (Real.sqrt (398600.4418 /
        ((398600.4418 * ((86400 / m) / (2 * Real.pi)) ^ 2) ^ ((1 : ℝ) / 3))))

/-- Python comparison `a < b` on floats: ordinary order on finite values, all
comparisons with NaN false, and the infinities at the ends. -/
def F.lt : F → F → Prop
  | .fin x, .fin y => x < y
  | .nan, _ => False
  | _, .nan => False
  | .ninf, .fin _ => True
  | .ninf, .inf => True
  | .ninf, .ninf => False
  | .inf, _ => False
  | .fin _, .inf => True
  | .fin _, .ninf => False

open Classical in
/-- `classify_orbit` of `generate_all_geojson.py`: `None` gives `Unknown`,
then the chained `<` thresholds 2000, 20000, 40000 select LEO, MEO, GEO and
otherwise HEO. -/
noncomputable def classify_orbit (altKm : Option F) : String :=
  match altKm with
  | none => "Unknown"
  | some a =>
    if F.lt a (.fin 2000) then "LEO"
    else if F.lt a (.fin 20000) then "MEO"
    else if F.lt a (.fin 40000) then "GEO"
    else "HEO"

/-- Python substring containment `needle in hay`. -/
def str_in (needle hay : String) : Prop :=
  ∃ pre post, hay.toList = pre ++ needle.toList ++ post

/-- A `meta.get(key)` result placed directly into a GeoJSON property bag. -/
def svalOfMeta : Option JVal → SVal
  | none => SVal.null
  | some (.int n) => SVal.int n
  | some (.num x) => SVal.flt (.fin x)
  | some (.str s) => SVal.str s
  | some .null => SVal.null

/-- A `safe_num` result placed into a GeoJSON property bag. -/
noncomputable def svalOfNum : Option ℝ → SVal
  | none => SVal.null
  | some x => SVal.flt (.fin x)

/-- One GeoJSON feature: the property bag and the point coordinates. -/
structure Feature where
  props : List (String × SVal)
  coordinates : SVal × SVal

/-- The feature literal built inside the matching-group loop of
`generate_group_files`.  The `"timestamp": pos["time"]` property indexes a
key that `compute_position` samples do not carry, so building the literal
raises `KeyError` (modelled as `none`), aborting `generate_group_files`. -/
noncomputable def build_feature (norad : ℤ) (sat : SatEntry)
    (lon lat alt : ℝ) (pos : Sample) : Option Feature :=
  let meta := sat.meta
  let mm := safe_num_jval meta.MEAN_MOTION
  let velocity := safe_num_real (compute_velocity_km_s mm)
  match List.lookup "time" pos with
  | none => none
  | some ts =>
    some ⟨[("norad_id", SVal.int norad),
      ("name", SVal.str sat.name),
      ("object_id", svalOfMeta meta.OBJECT_ID),
      ("object_type", svalOfMeta meta.OBJECT_TYPE),
      ("classification_type", svalOfMeta meta.CLASSIFICATION_TYPE),
      ("country", svalOfMeta meta.COUNTRY),
      ("launch_date", svalOfMeta meta.LAUNCH_DATE),
      ("site_code", svalOfMeta meta.SITE_CODE),
      ("decay_date", svalOfMeta meta.DECAY_DATE),
      ("rcs", svalOfNum (safe_num_jval meta.RCS)),
      ("inclination_deg", svalOfNum (safe_num_jval meta.INCLINATION)),
      ("eccentricity", svalOfNum (safe_num_jval meta.ECCENTRICITY)),
      ("mean_motion_rev_per_day", svalOfNum mm),
      ("mean_motion_dot", svalOfNum (safe_num_jval meta.MEAN_MOTION_DOT)),
      ("mean_motion_ddot", svalOfNum (safe_num_jval meta.MEAN_MOTION_DDOT)),
      ("raan_deg", svalOfNum (safe_num_jval meta.RA_OF_ASC_NODE)),
      ("argp_deg", svalOfNum (safe_num_jval meta.ARG_OF_PERICENTER)),
      ("mean_anomaly_deg", svalOfNum (safe_num_jval meta.MEAN_ANOMALY)),
      ("period_minutes", svalOfNum (safe_num_jval meta.PERIOD)),
      ("perigee_km", svalOfNum (safe_num_jval meta.PERIGEE)),
      ("apogee_km", svalOfNum (safe_num_jval meta.APOGEE)),
      ("bstar", svalOfNum (safe_num_jval meta.BSTAR)),
      ("longitude_deg", SVal.flt (.fin lon)),
      ("latitude_deg", SVal.flt (.fin lat)),
      ("alt_km", SVal.flt (.fin alt)),
      ("velocity_km_s", svalOfNum velocity),
      ("orbit_class", SVal.str (classify_orbit (some (.fin alt)))),
      ("tle_epoch", svalOfMeta meta.EPOCH),
      ("timestamp", ts)],
      (SVal.flt (.fin lon), SVal.flt (.fin lat))⟩

open Classical in
/-- The body of the per-satellite loop of `generate_group_files`: skip when
`compute_position` returned `None`; take the three coordinates through
`safe_num` and skip when any is `None`; otherwise, for each configured group
whose match string occurs (case-insensitively) in the satellite name, build
the feature.  Result `none` models an uncaught exception aborting the run. -/
noncomputable def sat_step (groupMap : List (String × String)) (ext : Ext)
    (sats : Catalog) (t : Instant) (norad : ℤ) (sat : SatEntry) :
    Option (List (String × Feature)) :=
  match compute_position ext sats norad (some t) with
  | none => some []
  | some pos =>
    match List.lookup "lon" pos, List.lookup "lat" pos,
        List.lookup "alt_km" pos with
    | some lonV, some latV, some altV =>
      match safe_num_sval lonV, safe_num_sval latV, safe_num_sval altV with
      | some lon, some lat, some alt =>
        groupMap.foldlM (fun acc p =>
          if str_in p.2.toLower sat.name.toLower then
            match build_feature norad sat lon lat alt pos with
            | none => none
            | some f => some (acc ++ [(p.1, f)])
          else some acc) []
      | _, _, _ => some []
    | _, _, _ => none

/-- `group_data[group_name].append(feature)` on the output map. -/
def append_feature (gd : List (String × List Feature)) (g : String)
    (f : Feature) : List (String × List Feature) :=
  gd.map (fun p => if p.1 = g then (p.1, p.2 ++ [f]) else p)

/-- `generate_group_files` of `generate_all_geojson.py`, up to the file
writes: the output map starts with an empty feature list for every configured
group label, and the per-satellite loop appends the tagged features of each
catalog entry.  Result `none` models an uncaught exception. -/
noncomputable def generate_group_files (groupMap : List (String × String))
    (ext : Ext) (sats : Catalog) (t : Instant) :
    Option (List (String × List Feature)) :=
  sats.foldlM (fun gd p =>
      (sat_step groupMap ext sats t p.1 p.2).map
        (fun feats => feats.foldl (fun acc q => append_feature acc q.1 q.2) gd))
    (groupMap.map (fun p => (p.1, ([] : List Feature))))

/-- The feature literal of `build_geojson` in `generate_geojson.py`: its
first property indexes `pos["NORAD"]` and its last `pos["time"]`, keys that
`compute_position` samples do not carry, so the build raises `KeyError`
(modelled as `none`). -/
noncomputable def build_geojson_feature (pos : Sample) : Option Feature := do
  let nid ← List.lookup "NORAD" pos
  let nm ← List.lookup "name" pos
  let alt ← List.lookup "alt_km" pos
  let ts ← List.lookup "time" pos
  let lon ← List.lookup "lon" pos
  let lat ← List.lookup "lat" pos
  pure ⟨[("norad_id", nid), ("name", nm), ("alt_km", alt), ("timestamp", ts)],
    (lon, lat)⟩

/-- Modelled from the spec (section 4.2): the Element Normalizer converts the
mean motion from revolutions/day to radians per minute, the scaling the
repository's loader is claimed to perform before `sgp4init`. -/
noncomputable def spec_mean_motion_rad_min (mm : ℝ) : ℝ :=
  mm * (2 * Real.pi / 1440)

/-- Modelled from the spec (section 4.2): the first mean-motion derivative
scaled by `2 * pi / 1440`. -/
noncomputable def spec_mean_motion_dot_norm (nd : ℝ) : ℝ :=
  nd * (2 * Real.pi / 1440)

/-- Modelled from the spec (section 4.2): the second mean-motion derivative
scaled by `2 * pi / 1440 ^ 2`. -/
noncomputable def spec_mean_motion_ddot_norm (ndd : ℝ) : ℝ :=
  ndd * (2 * Real.pi / 1440 ^ 2)

/-- A fixed query instant used in concrete runs. -/
def t0 : Instant := ⟨2024, 1, 1, 0, 0, 0, 0⟩

/-- A well-formed raw record, as fetched from the feed: every required field
present and numeric. -/
noncomputable def recGood : RawRecord :=
  { NORAD_CAT_ID := some 25544
    OBJECT_NAME := some "ISS"
    EPOCH := some (.num 25545.5)
    BSTAR := some (.num 0.0001)
    MEAN_MOTION_DOT := some (.num 0.0001)
    MEAN_MOTION_DDOT := some (.num 0)
    ECCENTRICITY := some (.num 0.0003)
    INCLINATION := some (.num 51.6)
    RA_OF_ASC_NODE := some (.num 10)
    ARG_OF_PERICENTER := some (.num 20)
    MEAN_ANOMALY := some (.num 30)
    MEAN_MOTION := some (.num 15.5)
    OBJECT_ID := none
    OBJECT_TYPE := none
    CLASSIFICATION_TYPE := none
    COUNTRY := none
    LAUNCH_DATE := none
    SITE_CODE := none
    DECAY_DATE := none
    RCS := none
    PERIOD := none
    PERIGEE := none
    APOGEE := none }

/-- `recGood` with the `NORAD_CAT_ID` key missing. -/
noncomputable def recNoId : RawRecord := { recGood with NORAD_CAT_ID := none }

/-- `recGood` under a different id with the `INCLINATION` key missing. -/
noncomputable def recNoInc : RawRecord :=
  { recGood with NORAD_CAT_ID := some 99999, INCLINATION := none }

/-- The propagator state the loader builds from `recGood`. -/
noncomputable def satrecGood : Satrec :=
  ⟨72, "i", 25544, 25545.5, 0.0001, 0.0001, 0, 0.0003, radians 20,
    radians 51.6, radians 30, 15.5, radians 10⟩

/-- A fetcher whose every group download yields the single record
`recGood`. -/
noncomputable def fetchGood : String → List RawRecord := fun _ => [recGood]

/-- A placeholder propagator state for hand-built catalog entries. -/
def srec0 : Satrec := ⟨72, "i", 1, 0, 0, 0, 0, 0, 0, 0, 0, 0, 0⟩

/-- A hand-built catalog entry. -/
noncomputable def entry0 : SatEntry := ⟨"TESTSAT", "stations", srec0, recGood⟩

/-- A one-entry catalog. -/
noncomputable def cat0 : Catalog := [(1, entry0)]

/-- External collaborators for a run whose propagation always succeeds with
the finite position (1, 2, 3) km. -/
noncomputable def ext0 : Ext :=
  ⟨fun _ _ _ _ _ _ => (0, 0),
    fun _ _ _ => (0, ((.fin 1), (.fin 2), (.fin 3)),
      ((.fin 0), (.fin 0), (.fin 0))),
    t0, fun _ => "2024-01-01T00:00:00+00:00"⟩

/-- External collaborators for a run whose propagation always fails with
error code 1. -/
noncomputable def extFail : Ext :=
  ⟨fun _ _ _ _ _ _ => (0, 0),
    fun _ _ _ => (1, ((.fin 0), (.fin 0), (.fin 0)),
      ((.fin 0), (.fin 0), (.fin 0))),
    t0, fun _ => "2024-01-01T00:00:00+00:00"⟩

/-- External collaborators for a run whose propagation reports success but
returns a NaN x-coordinate. -/
noncomputable def extNan : Ext :=
  ⟨fun _ _ _ _ _ _ => (0, 0),
    fun _ _ _ => (0, (F.nan, (.fin 0), (.fin 0)),
      ((.fin 0), (.fin 0), (.fin 0))),
    t0, fun _ => "2024-01-01T00:00:00+00:00"⟩

/-- External collaborators for a run whose propagation reports success but
returns a NaN y-coordinate. -/
noncomputable def extNanY : Ext :=
  ⟨fun _ _ _ _ _ _ => (0, 0),
    fun _ _ _ => (0, ((.fin 0), F.nan, (.fin 0)),
      ((.fin 0), (.fin 0), (.fin 0))),
    t0, fun _ => "2024-01-01T00:00:00+00:00"⟩

/-- The sample `compute_position` produces under `ext0` for the catalog
`cat0`. -/
noncomputable def sample0 : Sample :=
  [("norad_id", SVal.int 1), ("name", SVal.str "TESTSAT"),
    ("group", SVal.str "stations"),
    ("lon", SVal.flt (.fin (degrees (atan2 2 1)))),
    ("lat", SVal.flt (.fin (degrees (atan2 3 (Real.sqrt (1 * 1 + 2 * 2)))))),
    ("alt_km", SVal.flt (.fin (Real.sqrt (1 * 1 + 2 * 2 + 3 * 3) - 6378.137))),
    ("timestamp", SVal.str "2024-01-01T00:00:00+00:00"),
    ("meta", SVal.obj recGood)]

/-- External collaborators whose propagation always succeeds with the finite
position `(x, y, z)` km. -/
noncomputable def extOf (x y z : ℝ) : Ext :=
  ⟨fun _ _ _ _ _ _ => (0, 0),
    fun _ _ _ => (0, ((.fin x), (.fin y), (.fin z)),
      ((.fin 0), (.fin 0), (.fin 0))),
    t0, fun _ => "2024-01-01T00:00:00+00:00"⟩

/-- A fetcher for which every group download has failed (empty result). -/
def fetchEmpty : String → List RawRecord := fun _ => []

/-- The record `r`, fetched in group `g`, produced the catalog entry `e`
stored under key `k`: the id and name come from the record, the group label
from the fetch provenance, the propagator state from the converted angles and
the `sgp4init` call on the record's fields, and the metadata is the record
itself. -/
def recProduces (g : String) (r : RawRecord) (k : ℤ) (e : SatEntry) : Prop :=
  r.NORAD_CAT_ID = some k ∧ r.OBJECT_NAME = some e.name ∧ e.group = g ∧
  e.meta = r ∧
  ∃ incl raan argp meanAnom,
    anglesOf r = some (incl, raan, argp, meanAnom) ∧
    sgp4init k r incl raan argp meanAnom = some e.satrec

/-- NaN propagates through `atan2F` from the first argument. -/
theorem atan2F_nan_left (x : F) : atan2F F.nan x = F.nan := by
  cases x <;> rfl

/-- C1 (code bug): the loader converts the four angle fields from degrees to
radians, but hands the mean motion and its derivatives to `sgp4init` exactly
as found in the record (revolutions/day), not scaled to the propagator's
radians-per-minute convention: on a record with `MEAN_MOTION = 15.5` the
stored model keeps `15.5`, which differs from the normalization the
specification prescribes. -/
theorem c1_mean_motion_not_converted :
    load_all_groups ["stations"] fetchGood =
      some [(25544, ⟨"ISS", "stations", satrecGood, recGood⟩)] ∧
    satrecGood.noKozai = 15.5 ∧
    satrecGood.ndot = 0.0001 ∧
    satrecGood.inclo = radians 51.6 ∧
    spec_mean_motion_rad_min 15.5 ≠ satrecGood.noKozai ∧
    spec_mean_motion_dot_norm 0.0001 ≠ satrecGood.ndot := by
  refine ⟨rfl, rfl, rfl, rfl, ?_, ?_⟩
  · intro h
    rw [spec_mean_motion_rad_min] at h
    have h4 := Real.pi_lt_four
    have h3 := Real.pi_gt_three
    show False
    have : satrecGood.noKozai = 15.5 := rfl
    rw [this] at h
    nlinarith
  · intro h
    rw [spec_mean_motion_dot_norm] at h
    have h4 := Real.pi_lt_four
    have h3 := Real.pi_gt_three
    show False
    have : satrecGood.ndot = 0.0001 := rfl
    rw [this] at h
    nlinarith

/-- C2 (code bug): a record whose `NORAD_CAT_ID` key is missing raises an
uncaught `KeyError` in `load_all_groups` and aborts the whole load (the valid
record behind it is lost), while a record missing one of the protected fields
(here `INCLINATION`) is skipped and the batch continues. -/
theorem c2_missing_identifier_aborts :
    load_group_records "stations" [recNoId, recGood] [] = none ∧
    load_group_records "stations" [recNoInc, recGood] [] =
      load_group_records "stations" [recGood] [] ∧
    (load_group_records "stations" [recGood] []).isSome = true := by
  exact ⟨rfl, rfl, rfl⟩

/-- C3 (counterexample): the classifier maps the 25000 km altitude to `GEO`,
not to `MEO` as claimed: the source thresholds are 2000/20000/40000, not the
claimed 2000/35786 with a 35700-36000 geostationary band. -/
theorem c3_classify_25000_is_geo :
    classify_orbit (some (.fin 25000)) = "GEO" := by
  rw [classify_orbit]
  rw [if_neg (by rw [F.lt]; norm_num)]
  rw [if_neg (by rw [F.lt]; norm_num)]
  rw [if_pos (by rw [F.lt]; norm_num)]

open Classical in
/-- C3 (amended): `classify_orbit` returns `Unknown` exactly on `None`; on a
finite altitude it applies the chained thresholds LEO below 2000, MEO below
20000, GEO below 40000 and HEO above; a NaN altitude falls through every
comparison to HEO; in particular 35800 is GEO and 1500 is LEO, and the
classifier is a function, so no altitude maps to two classes. -/
theorem c3_classifier_amended (x : ℝ) :
    classify_orbit none = "Unknown" ∧
    classify_orbit (some (.fin x)) =
      (if x < 2000 then "LEO" else if x < 20000 then "MEO"
       else if x < 40000 then "GEO" else "HEO") ∧
    classify_orbit (some F.nan) = "HEO" ∧
    classify_orbit (some (.fin 35800)) = "GEO" ∧
    classify_orbit (some (.fin 1500)) = "LEO" := by
  refine ⟨rfl, ?_, ?_, ?_, ?_⟩
  · rw [classify_orbit]
    simp only [F.lt]
  · rw [classify_orbit]
    simp only [F.lt, if_false]
  · rw [classify_orbit]
    rw [if_neg (by rw [F.lt]; norm_num)]
    rw [if_neg (by rw [F.lt]; norm_num)]
    rw [if_pos (by rw [F.lt]; norm_num)]
  · rw [classify_orbit]
    rw [if_pos (by rw [F.lt]; norm_num)]

/-- C4 (counterexample): on a propagation that succeeds with a NaN
x-coordinate, `compute_position` does not downgrade the result: it returns a
sample (not `None`) whose `lon`, `lat` and `alt_km` fields are all NaN. -/
theorem c4_nan_not_downgraded :
    compute_position extNan cat0 1 (some t0) =
      some [("norad_id", SVal.int 1), ("name", SVal.str "TESTSAT"),
        ("group", SVal.str "stations"), ("lon", SVal.flt F.nan),
        ("lat", SVal.flt F.nan), ("alt_km", SVal.flt F.nan),
        ("timestamp", SVal.str "2024-01-01T00:00:00+00:00"),
        ("meta", SVal.obj recGood)] ∧
    compute_position extNan cat0 1 (some t0) ≠ none := by
  have h1 : compute_position extNan cat0 1 (some t0) =
      some [("norad_id", SVal.int 1), ("name", SVal.str "TESTSAT"),
        ("group", SVal.str "stations"), ("lon", SVal.flt F.nan),
        ("lat", SVal.flt F.nan), ("alt_km", SVal.flt F.nan),
        ("timestamp", SVal.str "2024-01-01T00:00:00+00:00"),
        ("meta", SVal.obj recGood)] := rfl
  exact ⟨h1, by rw [h1]; simp⟩

/-- C4 (amended): the position evaluator performs no finiteness check: a
zero-status propagation always yields a sample whose coordinate fields are
the raw arithmetic results, NaN included; `safe_num` rejects exactly the
non-finite values; and the serializer loop of `generate_group_files` merely
skips a sample with a non-finite coordinate (here a NaN propagator
y-coordinate, which makes `lon` NaN) instead of marking it
`PropagationFailed`. -/
theorem c4_no_finiteness_downgrade :
    (∀ (ext : Ext) (sats : Catalog) (norad : ℤ) (t : Instant) (sat : SatEntry)
      (jd fr : ℝ) (e : ℤ) (x y z : F) (v : F × F × F),
      List.lookup norad sats = some sat →
      ext.jday t.year t.month t.day t.hour t.minute
        ((t.second : ℝ) + (t.microsecond : ℝ) / 1000000) = (jd, fr) →
      ext.sgp4 sat.satrec jd fr = (e, (x, y, z), v) →
      e = 0 →
      compute_position ext sats norad (some t) =
        some [("norad_id", SVal.int norad),
          ("name", SVal.str sat.name),
          ("group", SVal.str sat.group),
          ("lon", SVal.flt (degF (atan2F y x))),
          ("lat", SVal.flt (degF (atan2F z
            (sqrtF (F.add (F.mul x x) (F.mul y y)))))),
          ("alt_km", SVal.flt (F.sub
            (sqrtF (F.add (F.add (F.mul x x) (F.mul y y)) (F.mul z z)))
            (F.fin 6378.137))),
          ("timestamp", SVal.str (ext.isoformat t)),
          ("meta", SVal.obj sat.meta)]) ∧
    (∀ f : F, safe_num_f f = none ↔ f = F.nan ∨ f = F.inf ∨ f = F.ninf) ∧
    (∀ (groupMap : List (String × String)) (ext : Ext) (sats : Catalog)
      (t : Instant) (norad : ℤ) (sat : SatEntry) (jd fr : ℝ) (e : ℤ)
      (x z : F) (v : F × F × F),
      List.lookup norad sats = some sat →
      ext.jday t.year t.month t.day t.hour t.minute
        ((t.second : ℝ) + (t.microsecond : ℝ) / 1000000) = (jd, fr) →
      ext.sgp4 sat.satrec jd fr = (e, (x, F.nan, z), v) →
      e = 0 →
      sat_step groupMap ext sats t norad sat = some []) := by
  refine ⟨?_, ?_, ?_⟩
  · intro ext sats norad t sat jd fr e x y z v hl hjd hsg he
    subst he
    simp only [compute_position, hl, Option.getD_some, position_sample, hjd,
      hsg]
    simp
  · intro f
    cases f <;> simp [safe_num_f]
  · intro groupMap ext sats t norad sat jd fr e x z v hl hjd hsg he
    subst he
    simp only [sat_step, compute_position, hl, Option.getD_some,
      position_sample, hjd, hsg]
    rw [atan2F_nan_left]
    rfl

/-- C4 (witness for the amended theorem): the three parts applied at concrete
inputs. -/
theorem c4_no_finiteness_downgrade_witness :
    compute_position extNan cat0 1 (some t0) =
      some [("norad_id", SVal.int 1),
        ("name", SVal.str "TESTSAT"),
        ("group", SVal.str "stations"),
        ("lon", SVal.flt (degF (atan2F (.fin 0) F.nan))),
        ("lat", SVal.flt (degF (atan2F (.fin 0)
          (sqrtF (F.add (F.mul F.nan F.nan) (F.mul (.fin 0) (.fin 0))))))),
        ("alt_km", SVal.flt (F.sub
          (sqrtF (F.add (F.add (F.mul F.nan F.nan) (F.mul (.fin 0) (.fin 0)))
            (F.mul (.fin 0) (.fin 0))))
          (F.fin 6378.137))),
        ("timestamp", SVal.str "2024-01-01T00:00:00+00:00"),
        ("meta", SVal.obj recGood)] ∧
    (safe_num_f F.nan = none ↔
      F.nan = F.nan ∨ F.nan = F.inf ∨ F.nan = F.ninf) ∧
    sat_step [] extNanY cat0 t0 1 entry0 = some [] :=
  ⟨c4_no_finiteness_downgrade.1 extNan cat0 1 t0 entry0 0 0 0 F.nan (.fin 0)
      (.fin 0) ((.fin 0), (.fin 0), (.fin 0)) rfl rfl rfl rfl,
    c4_no_finiteness_downgrade.2.1 F.nan,
    c4_no_finiteness_downgrade.2.2 [] extNanY cat0 t0 1 entry0 0 0 0 (.fin 0)
      (.fin 0) ((.fin 0), (.fin 0), (.fin 0)) rfl rfl rfl rfl⟩

/-- C5 (confirmed): a query for an identifier not in the catalog returns
`None` (the `NotFound` report), a non-zero propagator status code returns
`None` (the `PropagationFailed` sample), and the serializer loop treats a
`None` result as a skip (`continue`), so neither case is fatal. -/
theorem c5_failure_paths :
    (∀ (ext : Ext) (sats : Catalog) (norad : ℤ) (tOpt : Option Instant),
      List.lookup norad sats = none →
      compute_position ext sats norad tOpt = none) ∧
    (∀ (ext : Ext) (sats : Catalog) (norad : ℤ) (t : Instant) (sat : SatEntry)
      (jd fr : ℝ),
      List.lookup norad sats = some sat →
      ext.jday t.year t.month t.day t.hour t.minute
        ((t.second : ℝ) + (t.microsecond : ℝ) / 1000000) = (jd, fr) →
      (ext.sgp4 sat.satrec jd fr).1 ≠ 0 →
      compute_position ext sats norad (some t) = none) ∧
    (∀ (groupMap : List (String × String)) (ext : Ext) (sats : Catalog)
      (t : Instant) (norad : ℤ) (sat : SatEntry),
      compute_position ext sats norad (some t) = none →
      sat_step groupMap ext sats t norad sat = some []) := by
  refine ⟨?_, ?_, ?_⟩
  · intro ext sats norad tOpt hl
    simp only [compute_position, hl]
  · intro ext sats norad t sat jd fr hl hjd hne
    simp only [compute_position, hl, Option.getD_some, position_sample, hjd]
    rw [if_pos hne]
  · intro groupMap ext sats t norad sat h
    simp only [sat_step, h]

/-- C5 (witness): the three failure paths at concrete inputs: an empty
catalog, a propagator that fails with status code 1, and the serializer step
on that failing engine. -/
theorem c5_failure_paths_witness :
    compute_position ext0 [] 1 (some t0) = none ∧
    compute_position extFail cat0 1 (some t0) = none ∧
    sat_step [] extFail cat0 t0 1 entry0 = some [] := by
  have h2 : compute_position extFail cat0 1 (some t0) = none :=
    c5_failure_paths.2.1 extFail cat0 1 t0 entry0 0 0 rfl rfl (by decide)
  exact ⟨c5_failure_paths.1 ext0 [] 1 (some t0) rfl, h2,
    c5_failure_paths.2.2 [] extFail cat0 t0 1 entry0 h2⟩

/-- C8 (confirmed): `compute_position` at an explicitly supplied instant is a
pure function of the catalog entry stored under the queried identifier and of
the instant: two catalogs agreeing on that entry give identical samples, and
in particular evaluating twice on the same catalog gives bit-identical
results. -/
theorem c8_determinism (ext : Ext) (sats1 sats2 : Catalog) (norad : ℤ)
    (t : Instant) (h : List.lookup norad sats1 = List.lookup norad sats2) :
    compute_position ext sats1 norad (some t) =
      compute_position ext sats2 norad (some t) := by
  simp only [compute_position, h]

/-- C8 (witness): the determinism theorem applied to the same concrete
engine twice. -/
theorem c8_determinism_witness :
    compute_position ext0 cat0 1 (some t0) =
      compute_position ext0 cat0 1 (some t0) :=
  c8_determinism ext0 cat0 cat0 1 t0 rfl

/-- C9 (confirmed): every sample a successful `compute_position` returns has
exactly the eight keys `norad_id`, `name`, `group`, `lon`, `lat`, `alt_km`,
`timestamp`, `meta`; it has no `time` and no `NORAD` key; hence the feature
builder of `generate_geojson.py` (which indexes `pos["NORAD"]` and
`pos["time"]`) and the one of `generate_all_geojson.py` (which indexes
`pos["time"]`) both fail with a key-lookup error instead of producing a
feature. -/
theorem c9_sample_key_mismatch (ext : Ext) (sats : Catalog) (norad : ℤ)
    (t : Instant) (s : Sample)
    (h : compute_position ext sats norad (some t) = some s) :
    s.map Prod.fst =
      ["norad_id", "name", "group", "lon", "lat", "alt_km", "timestamp",
        "meta"] ∧
    List.lookup "time" s = none ∧
    List.lookup "NORAD" s = none ∧
    build_geojson_feature s = none ∧
    (∀ (n2 : ℤ) (sat2 : SatEntry) (lon lat alt : ℝ),
      build_feature n2 sat2 lon lat alt s = none) := by
  rw [compute_position] at h
  cases hl : List.lookup norad sats with
  | none => rw [hl] at h; exact absurd h (by simp)
  | some sat =>
    rw [hl] at h
    simp only [Option.getD_some, position_sample] at h
    by_cases he : (ext.sgp4 sat.satrec
        (ext.jday t.year t.month t.day t.hour t.minute
          ((t.second : ℝ) + (t.microsecond : ℝ) / 1000000)).1
        (ext.jday t.year t.month t.day t.hour t.minute
          ((t.second : ℝ) + (t.microsecond : ℝ) / 1000000)).2).1 ≠ 0
    · rw [if_pos he] at h
      exact absurd h (by simp)
    · rw [if_neg he] at h
      simp only [Option.getD_some, Option.some.injEq] at h
      subst h
      refine ⟨rfl, rfl, rfl, rfl, ?_⟩
      intro n2 sat2 lon lat alt
      rfl

/-- C9 (witness): the key mismatch exhibited on the concrete sample of a
successful concrete run. -/
theorem c9_sample_key_mismatch_witness :
    sample0.map Prod.fst =
      ["norad_id", "name", "group", "lon", "lat", "alt_km", "timestamp",
        "meta"] ∧
    List.lookup "time" sample0 = none ∧
    List.lookup "NORAD" sample0 = none ∧
    build_geojson_feature sample0 = none ∧
    build_feature 1 entry0 0 0 0 sample0 = none := by
  have h := c9_sample_key_mismatch ext0 cat0 1 t0 sample0 rfl
  exact ⟨h.1, h.2.1, h.2.2.1, h.2.2.2.1, h.2.2.2.2 1 entry0 0 0 0⟩

/-- Degree conversion is monotone. -/
theorem degrees_mono {a b : ℝ} (h : a ≤ b) : degrees a ≤ degrees b := by
  unfold degrees
  have hpos : (0 : ℝ) ≤ 180 / Real.pi := by positivity
  exact mul_le_mul_of_nonneg_right h hpos

/-- Degree conversion commutes with negation. -/
theorem degrees_neg (a : ℝ) : degrees (-a) = -degrees a := by
  unfold degrees; ring

/-- Exact value of a straight angle in degrees. -/
theorem degrees_pi_eq : degrees Real.pi = 180 := by
  unfold degrees; field_simp

/-- Exact value of a right angle in degrees. -/
theorem degrees_pi_div_two_eq : degrees (Real.pi / 2) = 90 := by
  unfold degrees
  field_simp
  ring

/-- C7 (confirmed): on a successful propagation with position `(x, y, z)` km
the evaluator emits `lon = atan2(y, x)` in degrees, `lat = atan2(z,
sqrt(x^2+y^2))` in degrees, and `alt = sqrt(x^2+y^2+z^2) - 6378.137` km, and
for every input the longitude lies in `[-180, 180]` and the latitude in
`[-90, 90]`. -/
theorem c7_geodetic_conversion (x y z : ℝ) :
    compute_position (extOf x y z) cat0 1 (some t0) =
      some [("norad_id", SVal.int 1), ("name", SVal.str "TESTSAT"),
        ("group", SVal.str "stations"),
        ("lon", SVal.flt (.fin (degrees (atan2 y x)))),
        ("lat", SVal.flt (.fin (degrees (atan2 z (Real.sqrt (x * x + y * y)))))),
        ("alt_km", SVal.flt (.fin (Real.sqrt (x * x + y * y + z * z) - 6378.137))),
        ("timestamp", SVal.str "2024-01-01T00:00:00+00:00"),
        ("meta", SVal.obj recGood)] ∧
    -180 ≤ degrees (atan2 y x) ∧ degrees (atan2 y x) ≤ 180 ∧
    -90 ≤ degrees (atan2 z (Real.sqrt (x * x + y * y))) ∧
    degrees (atan2 z (Real.sqrt (x * x + y * y))) ≤ 90 := by
  refine ⟨rfl, ?_, ?_, ?_, ?_⟩
  · have h1 : -Real.pi ≤ atan2 y x := le_of_lt (Complex.neg_pi_lt_arg ⟨x, y⟩)
    calc (-180 : ℝ) = degrees (-Real.pi) := by rw [degrees_neg, degrees_pi_eq]
      _ ≤ degrees (atan2 y x) := degrees_mono h1
  · have h1 : atan2 y x ≤ Real.pi := Complex.arg_le_pi ⟨x, y⟩
    calc degrees (atan2 y x) ≤ degrees Real.pi := degrees_mono h1
      _ = 180 := degrees_pi_eq
  · have hs : (0 : ℝ) ≤ Real.sqrt (x * x + y * y) := Real.sqrt_nonneg _
    have habs : |atan2 z (Real.sqrt (x * x + y * y))| ≤ Real.pi / 2 :=
      Complex.abs_arg_le_pi_div_two_iff.mpr hs
    have h1 := (abs_le.mp habs).1
    calc (-90 : ℝ) = degrees (-(Real.pi / 2)) := by
          rw [degrees_neg, degrees_pi_div_two_eq]
      _ ≤ degrees (atan2 z (Real.sqrt (x * x + y * y))) := degrees_mono h1
  · have hs : (0 : ℝ) ≤ Real.sqrt (x * x + y * y) := Real.sqrt_nonneg _
    have habs : |atan2 z (Real.sqrt (x * x + y * y))| ≤ Real.pi / 2 :=
      Complex.abs_arg_le_pi_div_two_iff.mpr hs
    have h1 := (abs_le.mp habs).2
    calc degrees (atan2 z (Real.sqrt (x * x + y * y)))
        ≤ degrees (Real.pi / 2) := degrees_mono h1
      _ = 90 := degrees_pi_div_two_eq

/-- Appending a feature to one group's list does not change the key list of
the output map. -/
theorem append_feature_keys (gd : List (String × List Feature)) (g : String)
    (f : Feature) : (append_feature gd g f).map Prod.fst = gd.map Prod.fst := by
  induction gd with
  | nil => rfl
  | cons p rest ih =>
    simp only [append_feature, List.map_cons] at ih ⊢
    rw [ih]
    by_cases h : p.1 = g
    · rw [if_pos h, h]
    · rw [if_neg h]

/-- Folding a batch of tagged features into the output map does not change
its key list. -/
theorem fold_features_keys (feats : List (String × Feature)) :
    ∀ gd : List (String × List Feature),
      (feats.foldl (fun acc q => append_feature acc q.1 q.2) gd).map Prod.fst =
        gd.map Prod.fst := by
  induction feats with
  | nil => intro gd; rfl
  | cons q rest ih =>
    intro gd
    rw [List.foldl_cons, ih, append_feature_keys]

/-- The satellite loop of `generate_group_files` preserves the key list of
the output map. -/
theorem gen_loop_keys (groupMap : List (String × String)) (ext : Ext)
    (sats : Catalog) (t : Instant) :
    ∀ (entries : List (ℤ × SatEntry)) (gd out : List (String × List Feature)),
      entries.foldlM (fun gd p =>
          (sat_step groupMap ext sats t p.1 p.2).map
            (fun feats =>
              feats.foldl (fun acc q => append_feature acc q.1 q.2) gd)) gd =
        some out →
      out.map Prod.fst = gd.map Prod.fst := by
  intro entries
  induction entries with
  | nil =>
    intro gd out h
    simp only [List.foldlM_nil] at h
    cases h
    rfl
  | cons p rest ih =>
    intro gd out h
    rw [List.foldlM_cons] at h
    cases hs : sat_step groupMap ext sats t p.1 p.2 with
    | none => rw [hs] at h; exact absurd h (by simp [Option.map_none])
    | some feats =>
      rw [hs] at h
      simp only [Option.map_some, Option.bind_eq_bind, Option.some_bind] at h
      rw [ih _ _ h, fold_features_keys]

/-- C6 (confirmed): when every attempt of the retry loop fails, `fetch_group`
returns the empty record list; a group whose fetch came back empty leaves the
load of the remaining groups exactly as if the group were absent; and the
output map of `generate_group_files` always carries exactly the configured
group labels as keys (groups with no features keep their empty list). -/
theorem c6_fetch_failure_isolation :
    (∀ attempts : List AttemptRes,
      (∀ a ∈ attempts, ¬ attemptSuccess a) → fetch_group attempts = []) ∧
    (∀ (pre post : List String) (g : String)
      (fetch : String → List RawRecord) (c : Catalog), fetch g = [] →
      load_groups_from (pre ++ g :: post) fetch c =
        load_groups_from (pre ++ post) fetch c) ∧
    (∀ (groupMap : List (String × String)) (ext : Ext) (sats : Catalog)
      (t : Instant) (out : List (String × List Feature)),
      generate_group_files groupMap ext sats t = some out →
      out.map Prod.fst = groupMap.map Prod.fst) := by
  refine ⟨?_, ?_, ?_⟩
  · intro attempts
    induction attempts with
    | nil => intro _; rfl
    | cons a rest ih =>
      intro h
      have ha := h a (List.mem_cons_self a rest)
      have hrest : ∀ b ∈ rest, ¬ attemptSuccess b :=
        fun b hb => h b (List.mem_cons_of_mem a hb)
      cases a with
      | exc => exact ih hrest
      | ok status body isList =>
        simp only [fetch_group]
        by_cases hc : status = 200 ∧ isList = true
        · rw [if_pos hc]
          cases body with
          | nil => exact ih hrest
          | cons r rs =>
            exact absurd ⟨hc.1, hc.2, by simp⟩ ha
        · rw [if_neg hc]
          exact ih hrest
  · intro pre post g fetch c hg
    induction pre generalizing c with
    | nil =>
      simp only [List.nil_append, load_groups_from, hg, List.isEmpty_nil,
        if_true]
    | cons g1 pre1 ih =>
      simp only [List.cons_append, load_groups_from]
      by_cases h1 : (fetch g1).isEmpty
      · rw [if_pos h1, if_pos h1]
        exact ih c
      · rw [if_neg h1, if_neg h1]
        cases hr : load_group_records g1 (fetch g1) c with
        | none => rfl
        | some c1 => exact ih c1
  · intro groupMap ext sats t out h
    rw [generate_group_files] at h
    rw [gen_loop_keys groupMap ext sats t sats _ out h, List.map_map]
    rfl

/-- C6 (witness): the three parts at concrete inputs: a run of two failed
attempts, a two-group load whose first group fetched empty, and a one-group
output map over an empty catalog. -/
theorem c6_fetch_failure_isolation_witness :
    fetch_group [AttemptRes.exc, AttemptRes.ok 500 [] true] = [] ∧
    load_groups_from ["a", "b"] fetchEmpty [] =
      load_groups_from ["b"] fetchEmpty [] ∧
    ([("g1", ([] : List Feature))] : List (String × List Feature)).map
        Prod.fst = [("g1", "x")].map Prod.fst := by
  refine ⟨?_, ?_, ?_⟩
  · apply c6_fetch_failure_isolation.1
    intro a ha
    rcases List.mem_cons.mp ha with rfl | ha1
    · simp [attemptSuccess]
    · rcases List.mem_cons.mp ha1 with rfl | ha2
      · simp [attemptSuccess]
      · exact absurd ha2 (List.not_mem_nil a)
  · exact c6_fetch_failure_isolation.2.1 [] ["b"] "a" fetchEmpty [] rfl
  · exact c6_fetch_failure_isolation.2.2 [("g1", "x")] ext0 [] t0
      [("g1", [])] rfl

/-- Replacing the value stored under one key does not change the key list. -/
theorem keys_map_replace (k : ℤ) (v : SatEntry) :
    ∀ c : Catalog,
      (c.map (fun p => if p.1 = k then (k, v) else p)).map Prod.fst =
        c.map Prod.fst := by
  intro c
  induction c with
  | nil => rfl
  | cons p rest ih =>
    simp only [List.map_cons]
    rw [ih]
    by_cases h : p.1 = k
    · rw [if_pos h, h]
    · rw [if_neg h]

/-- Python dict assignment preserves distinctness of the keys. -/
theorem dict_insert_keys_nodup (k : ℤ) (v : SatEntry) (c : Catalog)
    (h : (c.map Prod.fst).Nodup) :
    ((dict_insert k v c).map Prod.fst).Nodup := by
  unfold dict_insert
  by_cases hc : (c.map Prod.fst).contains k = true
  · rw [if_pos hc, keys_map_replace]
    exact h
  · rw [if_neg hc, List.map_append]
    have hk : k ∉ c.map Prod.fst := fun hm => hc (List.elem_iff.mpr hm)
    simp [List.nodup_append, h, hk]

/-- Every member of the dict after an assignment is an old member or the
assigned pair. -/
theorem dict_insert_mem {k : ℤ} {v : SatEntry} {c : Catalog}
    {p : ℤ × SatEntry} (h : p ∈ dict_insert k v c) : p ∈ c ∨ p = (k, v) := by
  unfold dict_insert at h
  by_cases hc : (c.map Prod.fst).contains k = true
  · rw [if_pos hc] at h
    rcases List.mem_map.mp h with ⟨q, hq, he⟩
    by_cases h1 : q.1 = k
    · rw [if_pos h1] at he
      exact Or.inr he.symm
    · rw [if_neg h1] at he
      exact Or.inl (he ▸ hq)
  · rw [if_neg hc] at h
    rcases List.mem_append.mp h with h1 | h1
    · exact Or.inl h1
    · exact Or.inr (List.mem_singleton.mp h1)

/-- Looking up the assigned key after an in-place replacement. -/
theorem lookup_map_replace (k : ℤ) (v : SatEntry) :
    ∀ c : Catalog, k ∈ c.map Prod.fst →
      List.lookup k (c.map (fun p => if p.1 = k then (k, v) else p)) =
        some v := by
  intro c
  induction c with
  | nil => intro hk; exact absurd hk (List.not_mem_nil k)
  | cons p rest ih =>
    obtain ⟨k1, v1⟩ := p
    intro hk
    simp only [List.map_cons]
    by_cases h1 : k1 = k
    · rw [if_pos h1]
      simp [List.lookup_cons]
    · rw [if_neg h1]
      have hne : (k == k1) = false :=
        beq_eq_false_iff_ne.mpr (fun he => h1 he.symm)
      simp only [List.lookup_cons, hne]
      have hk2 : k ∈ rest.map Prod.fst := by
        simp only [List.map_cons, List.mem_cons] at hk
        rcases hk with h2 | h2
        · exact absurd h2.symm h1
        · exact h2
      exact ih hk2

/-- Looking up a fresh key appended at the end. -/
theorem lookup_append_self (k : ℤ) (v : SatEntry) :
    ∀ c : Catalog, k ∉ c.map Prod.fst →
      List.lookup k (c ++ [(k, v)]) = some v := by
  intro c
  induction c with
  | nil => intro _; simp [List.lookup_cons]
  | cons p rest ih =>
    obtain ⟨k1, v1⟩ := p
    intro hk
    simp only [List.map_cons, List.mem_cons, not_or] at hk
    rw [List.cons_append, List.lookup_cons]
    have hne : (k == k1) = false := beq_eq_false_iff_ne.mpr hk.1
    simp only [hne]
    exact ih hk.2

/-- An in-place replacement under key `k` does not affect lookups of other
keys. -/
theorem lookup_map_replace_ne (k k' : ℤ) (v : SatEntry) (hne : k' ≠ k) :
    ∀ c : Catalog,
      List.lookup k' (c.map (fun p => if p.1 = k then (k, v) else p)) =
        List.lookup k' c := by
  intro c
  induction c with
  | nil => rfl
  | cons p rest ih =>
    obtain ⟨k1, v1⟩ := p
    simp only [List.map_cons]
    by_cases h1 : k1 = k
    · rw [if_pos h1]
      rw [List.lookup_cons, List.lookup_cons]
      have ha : (k' == k) = false := beq_eq_false_iff_ne.mpr hne
      have hb : (k' == k1) = false :=
        beq_eq_false_iff_ne.mpr (fun he => hne (he.trans h1))
      simp only [ha, hb]
      exact ih
    · rw [if_neg h1]
      rw [List.lookup_cons, List.lookup_cons]
      by_cases h2 : k' = k1
      · simp only [beq_iff_eq.mpr h2]
      · simp only [beq_eq_false_iff_ne.mpr h2]
        exact ih

/-- Appending a pair under key `k` does not affect lookups of other keys. -/
theorem lookup_append_ne (k k' : ℤ) (v : SatEntry) (hne : k' ≠ k) :
    ∀ c : Catalog, List.lookup k' (c ++ [(k, v)]) = List.lookup k' c := by
  intro c
  induction c with
  | nil =>
    have h : (k' == k) = false := beq_eq_false_iff_ne.mpr hne
    simp [List.lookup_cons, h]
  | cons p rest ih =>
    obtain ⟨k1, v1⟩ := p
    rw [List.cons_append, List.lookup_cons, List.lookup_cons]
    by_cases h2 : k' = k1
    · simp only [beq_iff_eq.mpr h2]
    · simp only [beq_eq_false_iff_ne.mpr h2]
      exact ih

/-- After a dict assignment, the assigned key maps to the assigned value,
whether or not the key was present before. -/
theorem lookup_dict_insert_self (k : ℤ) (v : SatEntry) (c : Catalog) :
    List.lookup k (dict_insert k v c) = some v := by
  unfold dict_insert
  by_cases hc : (c.map Prod.fst).contains k = true
  · rw [if_pos hc]
    exact lookup_map_replace k v c (List.elem_iff.mp hc)
  · rw [if_neg hc]
    exact lookup_append_self k v c (fun hm => hc (List.elem_iff.mpr hm))

/-- After a dict assignment, every other key maps to what it mapped to
before. -/
theorem lookup_dict_insert_ne (k k' : ℤ) (v : SatEntry) (c : Catalog)
    (hne : k' ≠ k) :
    List.lookup k' (dict_insert k v c) = List.lookup k' c := by
  unfold dict_insert
  by_cases hc : (c.map Prod.fst).contains k = true
  · rw [if_pos hc]
    exact lookup_map_replace_ne k k' v hne c
  · rw [if_neg hc]
    exact lookup_append_ne k k' v hne c

/-- Every member of the catalog after one record is processed is an old
member or the entry that record produced. -/
theorem process_entry_mem {g : String} {c : Catalog} {r : RawRecord}
    {c' : Catalog} (h : process_entry g c r = some c') {p : ℤ × SatEntry}
    (hp : p ∈ c') : p ∈ c ∨ recProduces g r p.1 p.2 := by
  cases hid : r.NORAD_CAT_ID with
  | none =>
    simp only [process_entry, hid] at h
    exact Option.noConfusion h
  | some norad =>
    cases hang : anglesOf r with
    | none =>
      simp only [process_entry, hid, hang, Option.some.injEq] at h
      subst h
      exact Or.inl hp
    | some quad =>
      obtain ⟨incl, raan, argp, meanAnom⟩ := quad
      cases hsg : sgp4init norad r incl raan argp meanAnom with
      | none =>
        simp only [process_entry, hid, hang, hsg, Option.some.injEq] at h
        subst h
        exact Or.inl hp
      | some sr =>
        cases hnm : r.OBJECT_NAME with
        | none =>
          simp only [process_entry, hid, hang, hsg, hnm] at h
          exact Option.noConfusion h
        | some nm =>
          simp only [process_entry, hid, hang, hsg, hnm,
            Option.some.injEq] at h
          subst h
          rcases dict_insert_mem hp with h1 | h1
          · exact Or.inl h1
          · right
            rw [h1]
            exact ⟨hid, hnm, rfl, rfl, incl, raan, argp, meanAnom, hang, hsg⟩

/-- Processing one record preserves distinctness of the catalog keys. -/
theorem process_entry_nodup {g : String} {c : Catalog} {r : RawRecord}
    {c' : Catalog} (h : process_entry g c r = some c')
    (hn : (c.map Prod.fst).Nodup) : (c'.map Prod.fst).Nodup := by
  cases hid : r.NORAD_CAT_ID with
  | none =>
    simp only [process_entry, hid] at h
    exact Option.noConfusion h
  | some norad =>
    cases hang : anglesOf r with
    | none =>
      simp only [process_entry, hid, hang, Option.some.injEq] at h
      subst h; exact hn
    | some quad =>
      obtain ⟨incl, raan, argp, meanAnom⟩ := quad
      cases hsg : sgp4init norad r incl raan argp meanAnom with
      | none =>
        simp only [process_entry, hid, hang, hsg, Option.some.injEq] at h
        subst h; exact hn
      | some sr =>
        cases hnm : r.OBJECT_NAME with
        | none =>
          simp only [process_entry, hid, hang, hsg, hnm] at h
          exact Option.noConfusion h
        | some nm =>
          simp only [process_entry, hid, hang, hsg, hnm,
            Option.some.injEq] at h
          subst h
          exact dict_insert_keys_nodup norad _ c hn

/-- Membership provenance across one group's record loop. -/
theorem load_group_records_mem {g : String} :
    ∀ (rs : List RawRecord) (c c' : Catalog),
      load_group_records g rs c = some c' →
      ∀ p ∈ c', p ∈ c ∨ ∃ r ∈ rs, recProduces g r p.1 p.2 := by
  intro rs
  induction rs with
  | nil =>
    intro c c' h p hp
    simp only [load_group_records, Option.some.injEq] at h
    subst h
    exact Or.inl hp
  | cons r rest ih =>
    intro c c' h p hp
    simp only [load_group_records] at h
    cases hpr : process_entry g c r with
    | none =>
      simp only [hpr] at h
      exact Option.noConfusion h
    | some c1 =>
      simp only [hpr] at h
      rcases ih c1 c' h p hp with h1 | ⟨r', hr', hprod⟩
      · rcases process_entry_mem hpr h1 with h2 | h2
        · exact Or.inl h2
        · exact Or.inr ⟨r, List.mem_cons_self r rest, h2⟩
      · exact Or.inr ⟨r', List.mem_cons_of_mem r hr', hprod⟩

/-- Key distinctness across one group's record loop. -/
theorem load_group_records_nodup {g : String} :
    ∀ (rs : List RawRecord) (c c' : Catalog),
      load_group_records g rs c = some c' →
      (c.map Prod.fst).Nodup → (c'.map Prod.fst).Nodup := by
  intro rs
  induction rs with
  | nil =>
    intro c c' h hn
    simp only [load_group_records, Option.some.injEq] at h
    subst h
    exact hn
  | cons r rest ih =>
    intro c c' h hn
    simp only [load_group_records] at h
    cases hpr : process_entry g c r with
    | none =>
      simp only [hpr] at h
      exact Option.noConfusion h
    | some c1 =>
      simp only [hpr] at h
      exact ih c1 c' h (process_entry_nodup hpr hn)

/-- Membership provenance across the group loop. -/
theorem load_groups_from_mem :
    ∀ (gs : List String) (fetch : String → List RawRecord) (c c' : Catalog),
      load_groups_from gs fetch c = some c' →
      ∀ p ∈ c', p ∈ c ∨ ∃ g ∈ gs, ∃ r ∈ fetch g, recProduces g r p.1 p.2 := by
  intro gs
  induction gs with
  | nil =>
    intro fetch c c' h p hp
    simp only [load_groups_from, Option.some.injEq] at h
    subst h
    exact Or.inl hp
  | cons g rest ih =>
    intro fetch c c' h p hp
    simp only [load_groups_from] at h
    by_cases hemp : (fetch g).isEmpty = true
    · rw [if_pos hemp] at h
      rcases ih fetch c c' h p hp with h1 | ⟨g', hg', hrest⟩
      · exact Or.inl h1
      · exact Or.inr ⟨g', List.mem_cons_of_mem g hg', hrest⟩
    · rw [if_neg hemp] at h
      cases hl : load_group_records g (fetch g) c with
      | none =>
        simp only [hl] at h
        exact Option.noConfusion h
      | some c1 =>
        simp only [hl] at h
        rcases ih fetch c1 c' h p hp with h1 | ⟨g', hg', hrest⟩
        · rcases load_group_records_mem (fetch g) c c1 hl p h1 with
            h2 | ⟨r, hr, hpr⟩
          · exact Or.inl h2
          · exact Or.inr ⟨g, List.mem_cons_self g rest, r, hr, hpr⟩
        · exact Or.inr ⟨g', List.mem_cons_of_mem g hg', hrest⟩

/-- Key distinctness across the group loop. -/
theorem load_groups_from_nodup :
    ∀ (gs : List String) (fetch : String → List RawRecord) (c c' : Catalog),
      load_groups_from gs fetch c = some c' →
      (c.map Prod.fst).Nodup → (c'.map Prod.fst).Nodup := by
  intro gs
  induction gs with
  | nil =>
    intro fetch c c' h hn
    simp only [load_groups_from, Option.some.injEq] at h
    subst h
    exact hn
  | cons g rest ih =>
    intro fetch c c' h hn
    simp only [load_groups_from] at h
    by_cases hemp : (fetch g).isEmpty = true
    · rw [if_pos hemp] at h
      exact ih fetch c c' h hn
    · rw [if_neg hemp] at h
      cases hl : load_group_records g (fetch g) c with
      | none =>
        simp only [hl] at h
        exact Option.noConfusion h
      | some c1 =>
        simp only [hl] at h
        exact ih fetch c1 c' h (load_group_records_nodup (fetch g) c c1 hl hn)

/-- C10 (confirmed): a catalog built by `load_all_groups` has pairwise
distinct identifiers (each id maps to exactly one entry); every stored entry
was produced, with all four fields, from one record of one fetched group; and
saving an entry overwrites any entry previously stored under the same id
while leaving all other ids untouched, so when the same id occurs in several
groups the last-loaded one wins. -/
theorem c10_catalog_invariants :
    (∀ (groups : List String) (fetch : String → List RawRecord) (c : Catalog),
      load_all_groups groups fetch = some c → (c.map Prod.fst).Nodup) ∧
    (∀ (groups : List String) (fetch : String → List RawRecord) (c : Catalog),
      load_all_groups groups fetch = some c →
      ∀ p ∈ c, ∃ g ∈ groups, ∃ r ∈ fetch g, recProduces g r p.1 p.2) ∧
    (∀ (g : String) (c : Catalog) (r : RawRecord) (k : ℤ) (nm : String)
      (incl raan argp meanAnom : ℝ) (sr : Satrec),
      r.NORAD_CAT_ID = some k → r.OBJECT_NAME = some nm →
      anglesOf r = some (incl, raan, argp, meanAnom) →
      sgp4init k r incl raan argp meanAnom = some sr →
      process_entry g c r = some (dict_insert k ⟨nm, g, sr, r⟩ c) ∧
      List.lookup k (dict_insert k ⟨nm, g, sr, r⟩ c) = some ⟨nm, g, sr, r⟩ ∧
      ∀ k' : ℤ, k' ≠ k →
        List.lookup k' (dict_insert k ⟨nm, g, sr, r⟩ c) =
          List.lookup k' c) := by
  refine ⟨?_, ?_, ?_⟩
  · intro groups fetch c h
    exact load_groups_from_nodup groups fetch [] c h List.nodup_nil
  · intro groups fetch c h p hp
    rcases load_groups_from_mem groups fetch [] c h p hp with h1 | h1
    · exact absurd h1 (List.not_mem_nil p)
    · exact h1
  · intro g c r k nm incl raan argp meanAnom sr hid hnm hang hsg
    refine ⟨?_, lookup_dict_insert_self k _ c,
      fun k' hne => lookup_dict_insert_ne k k' _ c hne⟩
    simp only [process_entry, hid, hang, hsg, hnm]

/-- C10 (witness): the three invariants at a concrete one-group load and a
concrete overwriting insertion into a catalog that already holds the key. -/
theorem c10_catalog_invariants_witness :
    (([(25544, (⟨"ISS", "stations", satrecGood, recGood⟩ : SatEntry))] :
        Catalog).map Prod.fst).Nodup ∧
    (∃ g ∈ ["stations"], ∃ r ∈ fetchGood g,
      recProduces g r 25544 ⟨"ISS", "stations", satrecGood, recGood⟩) ∧
    process_entry "stations" [(25544, entry0)] recGood =
      some (dict_insert 25544 ⟨"ISS", "stations", satrecGood, recGood⟩
        [(25544, entry0)]) := by
  refine ⟨?_, ?_, ?_⟩
  · exact c10_catalog_invariants.1 ["stations"] fetchGood _ rfl
  · have h := c10_catalog_invariants.2.1 ["stations"] fetchGood
      [(25544, ⟨"ISS", "stations", satrecGood, recGood⟩)] rfl
      (25544, ⟨"ISS", "stations", satrecGood, recGood⟩)
      (List.mem_singleton.mpr rfl)
    exact h
  · exact (c10_catalog_invariants.2.2 "stations" [(25544, entry0)] recGood
      25544 "ISS" (radians 51.6) (radians 10) (radians 20) (radians 30)
      satrecGood rfl rfl rfl rfl).1

end LiveSat
